import Mathlib

/-!
Verification development for the genai_career_insights backend.

The definitions below are shallow embeddings of the JavaScript source:
`src/services/overviewService.js`, `src/vertexclient/geminiClient.js`,
`src/services/synthesisService.js` and the Express route handlers
(roadmap endpoint).  JavaScript arrays become `List`, `Set` insertion
order becomes a first-occurrence deduplication, thrown errors become
`Except`, and `Date`/`Math.floor` arithmetic becomes `Int` with
flooring division (`Int.fdiv`).
-/

set_option autoImplicit false

namespace CareerInsights

variable {α : Type}

/-! ### First-occurrence deduplication

`Array.from(new Set(list))` in JavaScript returns the elements of
`list` with duplicates removed, keeping the first occurrence of each
element in order.  `dedupFirstAux seen l` drops the elements of `l`
already seen; `dedupSeen seen l` is the accumulator after a pass. -/

def dedupFirstAux [DecidableEq α] (seen : List α) : List α → List α
  | [] => []
  | x :: xs => if x ∈ seen then dedupFirstAux seen xs else x :: dedupFirstAux (x :: seen) xs

def dedupSeen [DecidableEq α] (seen : List α) : List α → List α
  | [] => seen
  | x :: xs => if x ∈ seen then dedupSeen seen xs else dedupSeen (x :: seen) xs

def dedupFirst [DecidableEq α] (l : List α) : List α :=
  dedupFirstAux [] l

end CareerInsights

namespace CareerInsights

/-! ### `overviewService.js` — keyword derivation (`getOverview`, lines 12–80)

`Prefs` carries the string fields of the `prefs` object that feed the
keyword computations (`days` and `limit` do not).  Absent fields are the
empty string, matching `(prefs.x || '')` in the source. -/

structure Prefs where
  role : String
  skills : String
  interests : String
  query : String
  policy : String
  emerging : String

/-! JavaScript string primitives, written by structural recursion on the
character list so that every keyword computation evaluates inside the
kernel. -/

/-- JavaScript `s.trim()`: strip whitespace from both ends. -/
def trimChars (cs : List Char) : List Char :=
  ((cs.dropWhile Char.isWhitespace).reverse.dropWhile Char.isWhitespace).reverse

def jsTrim (s : String) : String := String.mk (trimChars s.data)

/-- JavaScript `s.toLowerCase()` (ASCII case mapping). -/
def jsToLower (s : String) : String := String.mk (s.data.map Char.toLower)

/-- JavaScript `s.split(',')` at character level. -/
def splitCommaChars : List Char → List (List Char)
  | [] => [[]]
  | c :: rest =>
    match splitCommaChars rest with
    | [] => [[]]
    | t :: ts => if c = ',' then [] :: (t :: ts) else (c :: t) :: ts

/-- JavaScript `s.split(/\s+/)` followed by `.filter(Boolean)`: the
maximal runs of non-whitespace characters. -/
def splitWsChars : List Char → List (List Char)
  | [] => [[]]
  | c :: rest =>
    match splitWsChars rest with
    | [] => [[]]
    | t :: ts => if c.isWhitespace then [] :: (t :: ts) else (c :: t) :: ts

/-- `splitCsv` (overviewService.js lines 165–172): split on commas,
trim each token, drop empty tokens, keep at most the first 20. -/
def splitCsv (value : String) : List String :=
  (((splitCommaChars value.data).map (fun t => String.mk (trimChars t))).filter
    (fun s => s ≠ "")).take 20

/-- `const role = (prefs.role || '').trim()` (line 15). -/
def roleOf (p : Prefs) : String := jsTrim p.role

def likedSkills (p : Prefs) : List String := splitCsv p.skills

def interestsOf (p : Prefs) : List String := splitCsv p.interests

/-- `role.toLowerCase().split(/\s+/).filter(Boolean)` (lines 26 and 41). -/
def roleTokens (p : Prefs) : List String :=
  ((splitWsChars (jsToLower (roleOf p)).data).map String.mk).filter (fun s => s ≠ "")

/-- `keywordsDerived` (lines 23–27): skills ∪ interests ∪ role words, capped to 12. -/
def keywordsDerived (p : Prefs) : List String :=
  (dedupFirst (likedSkills p ++ interestsOf p ++ roleTokens p)).take 12

/-- `keywordsFromUserQuery` (line 28): CSV-split of the trimmed `query`, lowercased.
No deduplication is applied on this path in the source. -/
def keywordsFromUserQuery (p : Prefs) : List String :=
  (splitCsv (jsTrim p.query)).map jsToLower

/-- `keywords` (line 29): the user-query tokens when non-empty, else the derived list. -/
def generalKeywords (p : Prefs) : List String :=
  if keywordsFromUserQuery p ≠ [] then keywordsFromUserQuery p else keywordsDerived p

/-- `policyBase` (lines 32–39). -/
def policyBase : List String :=
  ["policy", "regulation", "government", "law",
   "visa", "immigration", "work permit", "student visa", "h1b", "opt", "stem opt",
   "compliance", "licensing", "certification", "accreditation",
   "data privacy", "gdpr", "hipaa", "ferpa",
   "export control", "sanction", "tariff",
   "grant", "scholarship", "financial aid"]

def interestTokens (p : Prefs) : List String := (interestsOf p).map jsToLower

def policyFromUser (p : Prefs) : List String :=
  (splitCsv (jsTrim p.policy)).map jsToLower

/-- `policyKeywords` (lines 43–48). -/
def policyKeywords (p : Prefs) : List String :=
  (dedupFirst ((if policyFromUser p ≠ [] then policyFromUser p else [])
    ++ (if policyFromUser p = [] then policyBase else [])
    ++ (if policyFromUser p = [] then interestTokens p else [])
    ++ (if policyFromUser p = [] then roleTokens p else []))).take 24

/-- `emergingDefaults` (overviewService.js lines 51–76), transcribed in order. -/
def emergingDefaults : List String :=
  ["ai", "genai", "ml", "llm", "nlp", "cv", "agentic ai",
   "cloud", "serverless", "edge", "5g", "iot", "cybersecurity",
   "data engineering", "data pipelines", "realtime analytics", "vector databases",
   "blockchain", "web3", "defi", "smart contracts",
   "quantum", "quantum algorithms",
   "robotics", "autonomy", "drones",
   "healthtech", "digital health", "medtech", "bioinformatics",
   "fintech", "payments", "fraud detection", "algo trading",
   "edtech", "learning analytics", "assessment",
   "climate tech", "sustainability", "energy storage", "ev",
   "manufacturing", "industry 4.0", "digital twins",
   "gaming", "ar", "vr", "metaverse",
   "govtech", "civic tech", "public sector",
   "legaltech", "regtech", "compliance",
   "ecommerce", "marketplaces", "logistics",
   "media", "creator economy", "personalization",
   "hrtech", "talent analytics", "future of work",
   "agritech", "precision agriculture",
   "space", "satellite",
   "product management", "design systems", "ux research",
   "data science", "mle", "mloPs", "llmOps"]

/-- The role→keyword mapping table of `deriveEmergingFromRole`
(overviewService.js lines 176–188): `(match, keywords)` rows. -/
def roleEmergingMap : List (List String × List String) :=
  [(["data scientist", "ml engineer", "ai engineer", "mle", "ds"],
    ["genai", "llm", "vector databases", "mloPs", "llmOps", "retrieval", "rag", "agents"]),
   (["software engineer", "backend", "fullstack", "sre", "devops"],
    ["cloud", "serverless", "edge", "observability", "platform engineering", "rust", "wasm"]),
   (["frontend", "ui", "ux", "designer"],
    ["design systems", "web performance", "accessibility", "wasm", "ar", "vr"]),
   (["product manager", "pm"],
    ["product analytics", "experimentation", "growth loops", "ai copilots"]),
   (["security", "infosec", "appsec"],
    ["zero trust", "ai security", "supply chain security", "sbom"]),
   (["health", "healthcare", "biotech"],
    ["healthtech", "digital health", "bioinformatics", "drug discovery ai"]),
   (["finance", "fintech", "quant"],
    ["fintech", "risk modeling", "fraud detection", "algo trading"]),
   (["education", "teacher", "professor", "edtech"],
    ["edtech", "adaptive learning", "learning analytics"]),
   (["climate", "sustainability", "energy"],
    ["climate tech", "grid optimization", "carbon accounting", "ev"]),
   (["manufacturing", "industrial"],
    ["industry 4.0", "digital twins", "predictive maintenance"]),
   (["gov", "public sector", "policy"],
    ["govtech", "civic tech", "regtech"])]

/-- JavaScript `s.includes(sub)`: substring containment at character level. -/
def strIncludes (s sub : String) : Bool := decide (sub.data <:+: s.data)

/-- `deriveEmergingFromRole` (lines 174–196): collect the keyword lists of
every row whose match-substring occurs in the lowercased role, in row order,
deduplicated by Set insertion order. -/
def deriveEmergingFromRole (roleRaw : String) : List String :=
  dedupFirst ((roleEmergingMap.filter
    (fun row => row.1.any (fun m => strIncludes (jsToLower roleRaw) m))).flatMap Prod.snd)

/-- `emergingFromUser` (line 77). -/
def emergingFromUser (p : Prefs) : List String :=
  (splitCsv (jsTrim p.emerging)).map jsToLower

/-- `emergingKeywords` (lines 79–80): user override when non-empty, else the
defaults followed by the role-derived additions; deduplicated, first 30 kept. -/
def emergingKeywords (p : Prefs) : List String :=
  (dedupFirst (if emergingFromUser p ≠ [] then emergingFromUser p
    else emergingDefaults ++ deriveEmergingFromRole (roleOf p))).take 30

/-! ### `toRelativeTime` (overviewService.js lines 199–219)

`new Date(x).getTime()` is modelled as an `Option Int` (milliseconds;
`none` for an unparsable timestamp) and `Date.now()` as an `Int`.
`Math.floor (a / k)` on a millisecond difference is `Int.fdiv a k`. -/

def secOf (diffMs : Int) : Int := diffMs.fdiv 1000

def minuteOf (diffMs : Int) : Int := (secOf diffMs).fdiv 60

def hourOf (diffMs : Int) : Int := (minuteOf diffMs).fdiv 60

def dayOf (diffMs : Int) : Int := (hourOf diffMs).fdiv 24

def monthOf (diffMs : Int) : Int := (dayOf diffMs).fdiv 30

def yearOf (diffMs : Int) : Int := (monthOf diffMs).fdiv 12

/-- The cascade of thresholds of `toRelativeTime` applied to `diffMs`. -/
def relTimeOfDiff (diffMs : Int) : String :=
  if secOf diffMs < 60 then toString (secOf diffMs) ++ "s ago"
  else if minuteOf diffMs < 60 then toString (minuteOf diffMs) ++ " minutes ago"
  else if hourOf diffMs < 24 then toString (hourOf diffMs) ++ " hours ago"
  else if dayOf diffMs < 30 then toString (dayOf diffMs) ++ " days ago"
  else if monthOf diffMs < 12 then toString (monthOf diffMs) ++ " months ago"
  else toString (yearOf diffMs) ++ " years ago"

/-- `toRelativeTime` (lines 199–219): `null` when the date is unparsable,
else the bucketed difference `Date.now() - d.getTime()`. -/
def toRelativeTime (parsedMs : Option Int) (nowMs : Int) : Option String :=
  match parsedMs with
  | none => none
  | some t => some (relTimeOfDiff (nowMs - t))

/-- The elapsed bucket denoted by the output: unit index
(0 = seconds, 1 = minutes, 2 = hours, 3 = days, 4 = months, 5 = years)
paired with the count in that unit. -/
def relBucket (diffMs : Int) : Nat × Int :=
  if secOf diffMs < 60 then (0, secOf diffMs)
  else if minuteOf diffMs < 60 then (1, minuteOf diffMs)
  else if hourOf diffMs < 24 then (2, hourOf diffMs)
  else if dayOf diffMs < 30 then (3, dayOf diffMs)
  else if monthOf diffMs < 12 then (4, monthOf diffMs)
  else (5, yearOf diffMs)

/-- The textual form attached to each bucket. -/
def bucketText : Nat × Int → String
  | (0, n) => toString n ++ "s ago"
  | (1, n) => toString n ++ " minutes ago"
  | (2, n) => toString n ++ " hours ago"
  | (3, n) => toString n ++ " days ago"
  | (4, n) => toString n ++ " months ago"
  | (_, n) => toString n ++ " years ago"

/-- Bucket order: a strictly coarser unit, or the same unit with an
equal-or-smaller count. -/
def bucketLe (a b : Nat × Int) : Prop :=
  a.1 < b.1 ∨ (a.1 = b.1 ∧ a.2 ≤ b.2)

/-! ### `getOverview` parallel fan-out (overviewService.js lines 83–163)

The nine warehouse queries are awaited with `Promise.all`, which
produces the array of results only when every promise fulfills and
otherwise rejects with a failing promise's error.  Each query outcome is
an `Except ε α`.  The assembled document mirrors the leaves of the
`overview` object returned at lines 146–161 (field names flatten the
nested JSON paths): `trendingSkills.general` and
`trendingSkills.personalized` come from queries 1 and 2,
`industryNews.personalized` and `industryNews.profileRelated` from
queries 3 and 5, `marketInsights.topSources` from query 8 and
`marketInsights.volumeByDay` from query 9,
`governmentPoliciesAndRegulations` from query 6 and
`emergingTechnologies` from query 7.  The 4th result — destructured as
`marketInsights` from `queryTopSources(days, limit)` at line 97 — is
never used in the returned document and is discarded.  The per-item
shaping of queries 3, 5 and 6 (`formatIndustryItem`,
`formatPolicyItem`) maps over the result arrays and is orthogonal to
the fan-out, so the document records the unshaped query results. -/

structure OverviewDoc (α : Type) where
  trendingSkillsGeneral : α
  trendingSkillsPersonalized : α
  industryNewsPersonalized : α
  industryNewsProfileRelated : α
  marketInsightsTopSources : α
  marketInsightsVolumeByDay : α
  governmentPoliciesAndRegulations : α
  emergingTechnologies : α

def getOverviewResult {ε α : Type} (q1 q2 q3 q4 q5 q6 q7 q8 q9 : Except ε α) :
    Except ε (OverviewDoc α) :=
  match q1 with
  | .error e => .error e
  | .ok a1 =>
  match q2 with
  | .error e => .error e
  | .ok a2 =>
  match q3 with
  | .error e => .error e
  | .ok a3 =>
  match q4 with
  | .error e => .error e
  | .ok _ =>
  match q5 with
  | .error e => .error e
  | .ok a5 =>
  match q6 with
  | .error e => .error e
  | .ok a6 =>
  match q7 with
  | .error e => .error e
  | .ok a7 =>
  match q8 with
  | .error e => .error e
  | .ok a8 =>
  match q9 with
  | .error e => .error e
  | .ok a9 => .ok ⟨a1, a2, a3, a5, a8, a9, a6, a7⟩

/-! ### `geminiClient.js` — errors, model candidates and the access-token cache

A thrown JavaScript error is modelled by `JsError`: `code` (a number or a
string such as `'ENOTFOUND'`, absent/falsy as `none`), the HTTP status of
an attached provider response (`responseStatus`, `none` when the error
carries no response), the optional `error.response.data.error.message`,
and the error's own `message`. -/

inductive JsCode where
  | num (n : Nat)
  | str (s : String)
  deriving DecidableEq

structure JsError where
  code : Option JsCode
  responseStatus : Option Nat
  responseErrorMessage : Option String
  message : String
  deriving DecidableEq

def mkJsError (msg : String) : JsError :=
  { code := none, responseStatus := none, responseErrorMessage := none, message := msg }

def jsCodeTruthy : JsCode → Bool
  | .num n => n != 0
  | .str s => s != ""

/-- `error?.code || error?.response?.status` (geminiClient.js line 71). -/
def errStatus (e : JsError) : Option JsCode :=
  match e.code with
  | some c => if jsCodeTruthy c then some c else e.responseStatus.map JsCode.num
  | none => e.responseStatus.map JsCode.num

/-- `status === 404` on the resolved status. -/
def is404 (e : JsError) : Bool :=
  match errStatus e with
  | some (JsCode.num n) => n == 404
  | _ => false

/-- `handleError` (geminiClient.js lines 145–167): classify a provider
error; errors that match no branch are returned unchanged. -/
def handleError (e : JsError) : JsError :=
  match e.responseStatus with
  | some status =>
    let msg := match e.responseErrorMessage with
      | some m => if m ≠ "" then m else e.message
      | none => e.message
    if status = 401 then mkJsError "Authentication failed. Check your Google Cloud credentials."
    else if status = 403 then mkJsError "Permission denied. Check your Google Cloud project permissions."
    else if status = 429 then mkJsError "Rate limit exceeded. Please try again later."
    else mkJsError ("Vertex AI API error (" ++ toString status ++ "): " ++ msg)
  | none =>
    if e.code = some (JsCode.str "ENOTFOUND") then
      mkJsError "Network error. Check your internet connection."
    else if e.code = some (JsCode.str "ECONNABORTED") then
      mkJsError "Request timeout. The AI service took too long to respond."
    else e

/-- The candidate loop of `generateContent` (geminiClient.js lines 47–79).
`attempts` lists, per candidate model in order, the outcome of calling the
provider for that candidate; `lastErr` is the accumulator of the source. -/
def generateLoop (attempts : List (Except JsError String)) (lastErr : Option JsError) :
    Except JsError String :=
  match attempts with
  | [] => Except.error (handleError (lastErr.getD (mkJsError "Model not found")))
  | a :: rest =>
    match a with
    | Except.ok r => Except.ok r
    | Except.error e => if is404 e then generateLoop rest (some e) else Except.error (handleError e)

def generateContent (attempts : List (Except JsError String)) : Except JsError String :=
  generateLoop attempts none

/-- The regex test `hyphen, \d, 3 times, $` (geminiClient.js line 86): the
name ends with a hyphen followed by exactly three digits. -/
def hasVersionSuffix (s : String) : Bool :=
  match s.data.reverse with
  | a :: b :: c :: d :: _ => a.isDigit && b.isDigit && c.isDigit && (d = Char.ofNat 45)
  | _ => false

/-- `getModelCandidates` (geminiClient.js lines 81–92): push the base,
its "-002" variant when unversioned, then each fixed fallback unless
already present, and deduplicate. -/
def getModelCandidates (base : String) : List String :=
  let l1 : List String := if base ≠ "" then [base] else []
  let l2 : List String :=
    l1 ++ (if base ≠ "" ∧ hasVersionSuffix base = false then [base ++ "-002"] else [])
  let l3 : List String := l2 ++ (if "gemini-2.5-flash" ∈ l2 then [] else ["gemini-2.5-flash"])
  let l4 : List String :=
    l3 ++ (if "gemini-1.5-flash-002" ∈ l3 then [] else ["gemini-1.5-flash-002"])
  let l5 : List String := l4 ++ (if "gemini-1.5-flash" ∈ l4 then [] else ["gemini-1.5-flash"])
  dedupFirst l5

/-- The candidate list as the spec describes it: the preferred name, the
"-002" variant exactly when the name lacks a version suffix, then the
three fixed fallbacks, deduplicated preserving first occurrence. -/
def candidateListSpec (base : String) : List String :=
  dedupFirst ([base] ++ (if hasVersionSuffix base then [] else [base ++ "-002"])
    ++ ["gemini-2.5-flash", "gemini-1.5-flash-002", "gemini-1.5-flash"])

/-! ### The access-token cache (geminiClient.js lines 13–45)

State: `this.accessToken` and `this.tokenExpiry`, both initially `null`.
A call at time `now` reuses the cached token when
`this.accessToken && this.tokenExpiry && Date.now() < this.tokenExpiry`;
otherwise it consults the credential provider, whose outcome is the
`fetched` argument.  The returned triple is (result, new state, whether
the provider was consulted). -/

structure TokenState where
  accessToken : Option String
  tokenExpiry : Option Int
  deriving DecidableEq

def tokenValid (st : TokenState) (now : Int) : Bool :=
  match st.accessToken, st.tokenExpiry with
  | some tok, some expiry => tok != "" && expiry != 0 && decide (now < expiry)
  | _, _ => false

def getAccessToken (st : TokenState) (now : Int) (fetched : Except String String) :
    Except String String × TokenState × Bool :=
  if tokenValid st now then
    (Except.ok (st.accessToken.getD ""), st, false)
  else
    match fetched with
    | Except.ok tok => (Except.ok tok, ⟨some tok, some (now + 55 * 60 * 1000)⟩, true)
    | Except.error e => (Except.error e, st, true)

/-! ### Input validation gates (`synthesisService.js` lines 14–17 and the
roadmap route of the insights router, lines 252–266)

Both operations either reject with a validation error before any prompt
exists, or proceed to build a prompt and call the model.  The prompt
construction itself is taken as a function parameter, so a theorem that
holds for every builder shows the builder is never consulted on the
rejecting path. -/

inductive RequestStep where
  | validationError (msg : String)
  | modelCall (prompt : String)
  deriving DecidableEq

/-- `synthesize` entry check: `if (!realTimeText && !governmentText) throw`
(synthesisService.js lines 15–17); otherwise `buildPrompt` is called and
its result sent to the model. -/
def synthesizeGate (buildPrompt : String → String → String)
    (realTimeText governmentText : String) : RequestStep :=
  if realTimeText = "" ∧ governmentText = "" then
    RequestStep.validationError "Provide at least one of realTimeText or governmentText"
  else
    RequestStep.modelCall (buildPrompt realTimeText governmentText)

/-- JavaScript `a || b` on strings: `a` when truthy (non-empty), else `b`. -/
def jsOrString (a b : String) : String := if a ≠ "" then a else b

/-- The roadmap route guard (insights router lines 263–266):
`requestedTitle = (roadmapName || title || role || '').trim()`, rejected
with HTTP 400 when empty; otherwise the prompt is built from it. -/
def roadmapGate (buildPrompt : String → String) (roadmapName title role : String) :
    RequestStep :=
  let requestedTitle := jsTrim (jsOrString roadmapName (jsOrString title (jsOrString role "")))
  if requestedTitle = "" then
    RequestStep.validationError "Provide roadmapName (or title/role) in the request body."
  else
    RequestStep.modelCall (buildPrompt requestedTitle)

/-! ### Roadmap response handling (insights router lines 345–362)

The model reply text is trimmed; an empty reply is a 500.  The substring
from the first opening brace to the last closing brace (the whole text
when that range is absent or degenerate) is handed to `JSON.parse`,
modelled as an arbitrary `parse : String → Option JsonVal`.  On parse
failure the route answers 502 with the raw text; on success it answers
`success: true` with `parsed.roadmapData` (dropped when absent — no
structural validation) and `parsed.certifications || []`. -/

inductive JsonVal where
  | null
  | bool (b : Bool)
  | num (n : Int)
  | str (s : String)
  | arr (xs : List JsonVal)
  | obj (fields : List (String × JsonVal))

def openBrace : Char := Char.ofNat 123

def closeBrace : Char := Char.ofNat 125

/-- `rawText.slice(firstBrace, lastBrace + 1)` when `firstBrace >= 0 &&
lastBrace > firstBrace`, else `rawText` (router lines 353–355). -/
def jsonCandidate (rawText : String) : String :=
  let cs := rawText.data
  let firstBrace := cs.indexOf openBrace
  let lastBrace := cs.length - 1 - cs.reverse.indexOf closeBrace
  if openBrace ∈ cs ∧ closeBrace ∈ cs ∧ firstBrace < lastBrace then
    String.mk ((cs.drop firstBrace).take (lastBrace + 1 - firstBrace))
  else rawText

/-- JavaScript truthiness of a JSON value. -/
def jsonTruthy : JsonVal → Bool
  | JsonVal.null => false
  | JsonVal.bool b => b
  | JsonVal.num n => n != 0
  | JsonVal.str s => s != ""
  | JsonVal.arr _ => true
  | JsonVal.obj _ => true

/-- Property access `v.key`: `none` (undefined) when `v` is not an object
or lacks the key. -/
def jsonGet (v : JsonVal) (key : String) : Option JsonVal :=
  match v with
  | JsonVal.obj fields => (fields.find? (fun f => f.1 = key)).map Prod.snd
  | _ => none

/-- `parsed.certifications || []` (router line 362). -/
def certsOf (parsed : JsonVal) : JsonVal :=
  match jsonGet parsed "certifications" with
  | some v => if jsonTruthy v then v else JsonVal.arr []
  | none => JsonVal.arr []

inductive RoadmapOutcome where
  | error500 (msg : String)
  | error502 (msg : String) (raw : String)
  | success (roadmap : Option JsonVal) (certifications : JsonVal)

/-- The response stage of the roadmap route (lines 345–362), given the
model reply text and the JSON parser. -/
def roadmapRespond (parse : String → Option JsonVal) (aiText : String) : RoadmapOutcome :=
  let rawText := jsTrim aiText
  if rawText = "" then RoadmapOutcome.error500 "Empty response from model"
  else
    match parse (jsonCandidate rawText) with
    | none => RoadmapOutcome.error502 "Failed to parse model JSON" rawText
    | some parsed => RoadmapOutcome.success (jsonGet parsed "roadmapData") (certsOf parsed)

/-! ### Lemmas about first-occurrence deduplication -/

variable {α : Type}

theorem mem_dedupSeen [DecidableEq α] (s : List α) (l : List α) (a : α) :
    a ∈ dedupSeen s l ↔ a ∈ s ∨ a ∈ l := by
  induction l generalizing s with
  | nil => simp [dedupSeen]
  | cons x xs ih =>
    by_cases hx : x ∈ s
    · simp only [dedupSeen, if_pos hx, ih]
      constructor
      · rintro (h | h)
        · exact Or.inl h
        · exact Or.inr (List.mem_cons_of_mem _ h)
      · rintro (h | h)
        · exact Or.inl h
        · rcases List.mem_cons.mp h with rfl | h
          · exact Or.inl hx
          · exact Or.inr h
    · simp only [dedupSeen, if_neg hx, ih, List.mem_cons]
      tauto

theorem dedupFirstAux_congr [DecidableEq α] (s t : List α) (l : List α)
    (h : ∀ a, a ∈ s ↔ a ∈ t) : dedupFirstAux s l = dedupFirstAux t l := by
  induction l generalizing s t with
  | nil => rfl
  | cons x xs ih =>
    by_cases hx : x ∈ s
    · rw [dedupFirstAux, dedupFirstAux, if_pos hx, if_pos ((h x).mp hx)]
      exact ih s t h
    · rw [dedupFirstAux, dedupFirstAux, if_neg hx, if_neg (fun ht => hx ((h x).mpr ht))]
      refine congrArg (x :: ·) (ih (x :: s) (x :: t) (fun a => ?_))
      simp only [List.mem_cons, h a]

theorem dedupFirstAux_append [DecidableEq α] (s : List α) (l m : List α) :
    dedupFirstAux s (l ++ m) = dedupFirstAux s l ++ dedupFirstAux (dedupSeen s l) m := by
  induction l generalizing s with
  | nil => rfl
  | cons x xs ih =>
    by_cases hx : x ∈ s
    · simp only [List.cons_append, dedupFirstAux, dedupSeen, if_pos hx]
      exact ih s
    · simp only [List.cons_append, dedupFirstAux, dedupSeen, if_neg hx]
      exact congrArg (x :: ·) (ih (x :: s))

theorem dedupFirstAux_eq_self [DecidableEq α] (s : List α) (l : List α)
    (hdisj : ∀ a ∈ l, a ∉ s) (hnd : l.Nodup) : dedupFirstAux s l = l := by
  induction l generalizing s with
  | nil => rfl
  | cons x xs ih =>
    have hx : x ∉ s := hdisj x (List.mem_cons_self x xs)
    rw [dedupFirstAux, if_neg hx]
    refine congrArg (x :: ·) (ih (x :: s) ?_ (List.Nodup.of_cons hnd))
    intro a ha
    simp only [List.mem_cons, not_or]
    exact ⟨fun h => (List.nodup_cons.mp hnd).1 (h ▸ ha), hdisj a (List.mem_cons_of_mem _ ha)⟩

theorem dedupFirst_append_of_nodup [DecidableEq α] (l m : List α) (hnd : l.Nodup) :
    ∃ m', dedupFirst (l ++ m) = l ++ m' := by
  refine ⟨dedupFirstAux (dedupSeen [] l) m, ?_⟩
  rw [dedupFirst, dedupFirstAux_append]
  rw [dedupFirstAux_eq_self [] l (by simp) hnd]

/-- Pushing an element only when it is absent, followed by a final
first-occurrence deduplication, is the same as always pushing it. -/
theorem dedupFirst_push [DecidableEq α] (l m : List α) (a : α) :
    dedupFirst (l ++ (if a ∈ l then [] else [a]) ++ m) = dedupFirst (l ++ [a] ++ m) := by
  by_cases h : a ∈ l
  · rw [if_pos h]
    simp only [List.append_nil, List.append_assoc, List.singleton_append]
    rw [dedupFirst, dedupFirst, dedupFirstAux_append, dedupFirstAux_append]
    have ha : a ∈ dedupSeen ([] : List α) l := (mem_dedupSeen _ _ _).mpr (Or.inr h)
    rw [show dedupFirstAux (dedupSeen ([] : List α) l) (a :: m)
          = dedupFirstAux (dedupSeen ([] : List α) l) m from by
        rw [dedupFirstAux, if_pos ha]]
  · rw [if_neg h]

theorem dedupFirst_push_nil [DecidableEq α] (l : List α) (a : α) :
    dedupFirst (l ++ (if a ∈ l then [] else [a])) = dedupFirst (l ++ [a]) := by
  have h := dedupFirst_push l [] a
  simpa using h

theorem dedupFirst_pushL [DecidableEq α] (l m : List α) (a : α) :
    dedupFirst ((l ++ (if a ∈ l then [] else [a])) ++ m) = dedupFirst (l ++ ([a] ++ m)) := by
  have h := dedupFirst_push l m a
  simpa [List.append_assoc] using h

theorem take_append_le (n : Nat) (l m : List α) (h : n ≤ l.length) :
    (l ++ m).take n = l.take n := by
  induction l generalizing n with
  | nil =>
    have : n = 0 := Nat.le_zero.mp h
    simp [this]
  | cons x xs ih =>
    cases n with
    | zero => simp
    | succ k =>
      simp only [List.cons_append, List.take_succ_cons]
      exact congrArg (x :: ·) (ih k (Nat.succ_le_succ_iff.mp h))

/-! ### Claim C1 -/

/-- Modelled from the spec's words (for comparison with `generalKeywords`):
the override split on commas, trimmed, lowercased, empty tokens dropped,
and deduplicated. -/
def generalKeywordsSpec (q : String) : List String :=
  dedupFirst ((splitCsv q).map jsToLower)

/-- C1 (counterexample): the general keyword list built from a non-empty
`query` override is not deduplicated — for `query="a,a"` the code produces
`["a", "a"]` while the spec's description produces `["a"]` — and a
non-empty override string whose tokens all vanish (`query=","`) falls back
to the derived list instead of being used as-is. -/
theorem C1_counterexample :
    generalKeywords ⟨"", "", "", "a,a", "", ""⟩ = ["a", "a"] ∧
    generalKeywordsSpec "a,a" = ["a"] ∧
    generalKeywords ⟨"", "", "", "a,a", "", ""⟩ ≠ generalKeywordsSpec "a,a" ∧
    ("," : String) ≠ "" ∧
    generalKeywords ⟨"", "x", "", ",", "", ""⟩ = ["x"] := by
  exact ⟨by decide, by decide, by decide, by decide, by decide⟩

/-- C1 (amended): whenever the `query` override yields at least one token
after CSV-splitting, trimming and dropping empties, `getOverview` uses
exactly those tokens (trimmed, lowercased, capped at 20, duplicates
retained) as the general keyword list and never consults the derived
union of skills, interests and role tokens; in particular
`query="student visa,H1B,OPT"` gives `["student visa", "h1b", "opt"]`
regardless of role, skills and interests. -/
theorem C1_general_override :
    (∀ p : Prefs, keywordsFromUserQuery p ≠ [] → generalKeywords p = keywordsFromUserQuery p) ∧
    (∀ role skills interests pol em : String,
      generalKeywords ⟨role, skills, interests, "student visa,H1B,OPT", pol, em⟩
        = ["student visa", "h1b", "opt"]) := by
  constructor
  · intro p h
    simp [generalKeywords, h]
  · intro role skills interests pol em
    rfl

theorem C1_general_override_witness :
    keywordsFromUserQuery ⟨"", "", "", "student visa,H1B,OPT", "", ""⟩ ≠ [] ∧
    generalKeywords ⟨"", "", "", "student visa,H1B,OPT", "", ""⟩
      = keywordsFromUserQuery ⟨"", "", "", "student visa,H1B,OPT", "", ""⟩ :=
  ⟨by decide, C1_general_override.1 ⟨"", "", "", "student visa,H1B,OPT", "", ""⟩ (by decide)⟩

/-! ### Claim C7 -/

/-- C7: for fully empty preferences the policy keyword list and the
emerging keyword list are non-empty — they are the curated baseline
(capped to 24) and the curated defaults (capped to 30) — while the
general keyword list is empty. -/
theorem C7_empty_prefs_baselines :
    policyKeywords ⟨"", "", "", "", "", ""⟩ ≠ [] ∧
    emergingKeywords ⟨"", "", "", "", "", ""⟩ ≠ [] ∧
    generalKeywords ⟨"", "", "", "", "", ""⟩ = [] ∧
    policyKeywords ⟨"", "", "", "", "", ""⟩ = policyBase.take 24 ∧
    emergingKeywords ⟨"", "", "", "", "", ""⟩ = emergingDefaults.take 30 := by
  exact ⟨by decide, by decide, by decide, by decide, by rfl⟩

/-! ### Claim C8 -/

/-- C8: a synthesis request with both free texts empty is rejected with a
validation error for every possible prompt builder (so no prompt is built
and no model call issued), and a roadmap request in which `roadmapName`,
`title` and `role` are all empty or blank is likewise rejected before the
prompt stage. -/
theorem C8_validation :
    (∀ bp : String → String → String,
       synthesizeGate bp "" ""
         = RequestStep.validationError "Provide at least one of realTimeText or governmentText") ∧
    (∀ (bp : String → String) (nm ttl rl : String),
       jsTrim nm = "" → jsTrim ttl = "" → jsTrim rl = "" →
       roadmapGate bp nm ttl rl
         = RequestStep.validationError "Provide roadmapName (or title/role) in the request body.") := by
  constructor
  · intro bp
    rfl
  · intro bp nm ttl rl h1 h2 h3
    by_cases hn : nm = ""
    · by_cases ht : ttl = ""
      · by_cases hr : rl = ""
        · simp [roadmapGate, jsOrString, hn, ht, hr, jsTrim, trimChars]
        · simp [roadmapGate, jsOrString, hn, ht, hr, h3]
      · simp [roadmapGate, jsOrString, hn, ht, h2]
    · simp [roadmapGate, jsOrString, hn, h1]

theorem C8_validation_witness :
    synthesizeGate (fun a b => a ++ b) "" ""
      = RequestStep.validationError "Provide at least one of realTimeText or governmentText" ∧
    roadmapGate (fun t => t) " " "" ""
      = RequestStep.validationError "Provide roadmapName (or title/role) in the request body." :=
  ⟨C8_validation.1 (fun a b => a ++ b),
   C8_validation.2 (fun t => t) " " "" "" (by decide) (by decide) (by decide)⟩

/-! ### Claim C10 -/

/-- C10: when the trimmed model reply is non-empty and the substring from
the first opening brace to the last closing brace parses as a JSON
object, the roadmap route answers success with the object's
`roadmapData` field (absent when the key is missing — no structural
validation) and with `certifications` defaulting to the empty array. -/
theorem C10_roadmap_success :
    (∀ (parse : String → Option JsonVal) (aiText : String) (fields : List (String × JsonVal)),
       jsTrim aiText ≠ "" →
       parse (jsonCandidate (jsTrim aiText)) = some (JsonVal.obj fields) →
       roadmapRespond parse aiText
         = RoadmapOutcome.success (jsonGet (JsonVal.obj fields) "roadmapData")
             (certsOf (JsonVal.obj fields))) ∧
    (∀ fields : List (String × JsonVal), (∀ f ∈ fields, f.1 ≠ "roadmapData") →
       jsonGet (JsonVal.obj fields) "roadmapData" = none) := by
  constructor
  · intro parse aiText fields h1 h2
    unfold roadmapRespond
    rw [if_neg h1, h2]
  · intro fields hf
    have h : List.find? (fun f => decide (f.1 = "roadmapData")) fields = none := by
      rw [List.find?_eq_none]
      intro f hfm
      simpa using hf f hfm
    simp [jsonGet, h]

theorem C10_roadmap_success_witness :
    roadmapRespond
        (fun s => if s = String.mk [openBrace, closeBrace] then some (JsonVal.obj []) else none)
        ("x " ++ String.mk [openBrace, closeBrace])
      = RoadmapOutcome.success (jsonGet (JsonVal.obj []) "roadmapData")
          (certsOf (JsonVal.obj [])) :=
  C10_roadmap_success.1
    (fun s => if s = String.mk [openBrace, closeBrace] then some (JsonVal.obj []) else none)
    ("x " ++ String.mk [openBrace, closeBrace]) [] (by decide) (by rfl)

/-! ### Claim C2 -/

/-- C2 (counterexample): if one of the nine warehouse queries fails, the
`Promise.all` fan-out rejects the whole overview; the sibling results are
not assembled into a returned document. -/
theorem C2_counterexample :
    getOverviewResult (Except.error "warehouse down") (Except.ok 1) (Except.ok 2) (Except.ok 3)
        (Except.ok 4) (Except.ok 5) (Except.ok 6) (Except.ok 7) (Except.ok 8)
      = (Except.error "warehouse down" : Except String (OverviewDoc Nat)) ∧
    ∀ doc : OverviewDoc Nat,
      getOverviewResult (Except.error "warehouse down") (Except.ok 1) (Except.ok 2) (Except.ok 3)
          (Except.ok 4) (Except.ok 5) (Except.ok 6) (Except.ok 7) (Except.ok 8)
        ≠ Except.ok doc := by
  refine ⟨rfl, fun doc h => Except.noConfusion h⟩

/-- C2 (amended): the nine warehouse queries are awaited with
`Promise.all`, so a failure in any one of them makes the whole
`getOverview` fail — a success document is returned exactly when all nine
queries succeed.  The returned document is assembled from queries 1, 2,
3, 5, 6, 7, 8 and 9 (its `topSources` field comes from the 8th query);
the 4th query's result, destructured as the unused `marketInsights`
variable, is awaited but discarded. -/
theorem C2_promise_all :
    (∀ (ε α : Type) (q1 q2 q3 q4 q5 q6 q7 q8 q9 : Except ε α) (doc : OverviewDoc α),
       getOverviewResult q1 q2 q3 q4 q5 q6 q7 q8 q9 = Except.ok doc →
         q1 = Except.ok doc.trendingSkillsGeneral ∧
         q2 = Except.ok doc.trendingSkillsPersonalized ∧
         q3 = Except.ok doc.industryNewsPersonalized ∧
         (∃ a4, q4 = Except.ok a4) ∧
         q5 = Except.ok doc.industryNewsProfileRelated ∧
         q6 = Except.ok doc.governmentPoliciesAndRegulations ∧
         q7 = Except.ok doc.emergingTechnologies ∧
         q8 = Except.ok doc.marketInsightsTopSources ∧
         q9 = Except.ok doc.marketInsightsVolumeByDay) ∧
    (∀ (ε α : Type) (v1 v2 v3 v4 v5 v6 v7 v8 v9 : α),
       getOverviewResult (ε := ε) (Except.ok v1) (Except.ok v2) (Except.ok v3) (Except.ok v4)
           (Except.ok v5) (Except.ok v6) (Except.ok v7) (Except.ok v8) (Except.ok v9)
         = Except.ok ⟨v1, v2, v3, v5, v8, v9, v6, v7⟩) := by
  constructor
  · intro ε α q1 q2 q3 q4 q5 q6 q7 q8 q9 doc h
    rcases q1 with e | a1
    · exact Except.noConfusion h
    rcases q2 with e | a2
    · exact Except.noConfusion h
    rcases q3 with e | a3
    · exact Except.noConfusion h
    rcases q4 with e | a4
    · exact Except.noConfusion h
    rcases q5 with e | a5
    · exact Except.noConfusion h
    rcases q6 with e | a6
    · exact Except.noConfusion h
    rcases q7 with e | a7
    · exact Except.noConfusion h
    rcases q8 with e | a8
    · exact Except.noConfusion h
    rcases q9 with e | a9
    · exact Except.noConfusion h
    injection h with h2
    subst h2
    exact ⟨rfl, rfl, rfl, ⟨a4, rfl⟩, rfl, rfl, rfl, rfl, rfl⟩
  · intro ε α v1 v2 v3 v4 v5 v6 v7 v8 v9
    rfl

theorem C2_promise_all_witness :
    (Except.ok 1 : Except String Nat)
        = Except.ok (OverviewDoc.trendingSkillsGeneral ⟨1, 2, 3, 5, 8, 9, 6, 7⟩) ∧
    (Except.ok 2 : Except String Nat)
        = Except.ok (OverviewDoc.trendingSkillsPersonalized ⟨1, 2, 3, 5, 8, 9, 6, 7⟩) ∧
    (Except.ok 3 : Except String Nat)
        = Except.ok (OverviewDoc.industryNewsPersonalized ⟨1, 2, 3, 5, 8, 9, 6, 7⟩) ∧
    (∃ a4, (Except.ok 4 : Except String Nat) = Except.ok a4) ∧
    (Except.ok 5 : Except String Nat)
        = Except.ok (OverviewDoc.industryNewsProfileRelated ⟨1, 2, 3, 5, 8, 9, 6, 7⟩) ∧
    (Except.ok 6 : Except String Nat)
        = Except.ok (OverviewDoc.governmentPoliciesAndRegulations ⟨1, 2, 3, 5, 8, 9, 6, 7⟩) ∧
    (Except.ok 7 : Except String Nat)
        = Except.ok (OverviewDoc.emergingTechnologies ⟨1, 2, 3, 5, 8, 9, 6, 7⟩) ∧
    (Except.ok 8 : Except String Nat)
        = Except.ok (OverviewDoc.marketInsightsTopSources ⟨1, 2, 3, 5, 8, 9, 6, 7⟩) ∧
    (Except.ok 9 : Except String Nat)
        = Except.ok (OverviewDoc.marketInsightsVolumeByDay ⟨1, 2, 3, 5, 8, 9, 6, 7⟩) :=
  C2_promise_all.1 String Nat (Except.ok 1) (Except.ok 2) (Except.ok 3) (Except.ok 4)
    (Except.ok 5) (Except.ok 6) (Except.ok 7) (Except.ok 8) (Except.ok 9)
    ⟨1, 2, 3, 5, 8, 9, 6, 7⟩ rfl

/-! ### Claim C3 -/

/-- C3 (counterexample): for role `"data scientist"` and no emerging
override, the role mapping does contribute `"retrieval"`, `"rag"` and
`"agents"`, but the 30-item cap cuts them from the final emerging keyword
list because the curated defaults alone already fill the first 30 slots. -/
theorem C3_counterexample :
    "retrieval" ∈ deriveEmergingFromRole "data scientist" ∧
    "rag" ∈ deriveEmergingFromRole "data scientist" ∧
    "agents" ∈ deriveEmergingFromRole "data scientist" ∧
    emergingFromUser ⟨"data scientist", "", "", "", "", ""⟩ = [] ∧
    "retrieval" ∉ emergingKeywords ⟨"data scientist", "", "", "", "", ""⟩ ∧
    "rag" ∉ emergingKeywords ⟨"data scientist", "", "", "", "", ""⟩ ∧
    "agents" ∉ emergingKeywords ⟨"data scientist", "", "", "", "", ""⟩ := by
  exact ⟨by decide, by decide, by decide, by decide, by decide, by decide, by decide⟩

/-- C3 (amended): with an empty emerging override, the emerging keyword
list is the deduplicated union of the curated defaults and the
role-derived additions capped to 30 items, which — since the curated
default list has 74 distinct entries — is always exactly the first 30
defaults; role-derived additions never survive the cap.  In particular
the list contains `"genai"`, `"llm"` and `"vector databases"` but not
`"retrieval"`, `"rag"` or `"agents"`. -/
theorem C3_emerging_cap :
    (∀ p : Prefs, emergingFromUser p = [] → emergingKeywords p = emergingDefaults.take 30) ∧
    "genai" ∈ emergingDefaults.take 30 ∧
    "llm" ∈ emergingDefaults.take 30 ∧
    "vector databases" ∈ emergingDefaults.take 30 ∧
    "retrieval" ∉ emergingDefaults.take 30 ∧
    "rag" ∉ emergingDefaults.take 30 ∧
    "agents" ∉ emergingDefaults.take 30 := by
  refine ⟨?_, by decide, by decide, by decide, by decide, by decide, by decide⟩
  intro p h
  unfold emergingKeywords
  rw [if_neg (by simp [h])]
  obtain ⟨m', hm⟩ := dedupFirst_append_of_nodup emergingDefaults
    (deriveEmergingFromRole (roleOf p)) (by decide)
  rw [hm, take_append_le 30 _ _ (by decide)]

theorem C3_emerging_cap_witness :
    emergingFromUser ⟨"ml engineer", "", "", "", "", ""⟩ = [] ∧
    emergingKeywords ⟨"ml engineer", "", "", "", "", ""⟩ = emergingDefaults.take 30 :=
  ⟨by decide, C3_emerging_cap.1 ⟨"ml engineer", "", "", "", "", ""⟩ (by decide)⟩

/-! ### Claim C5 -/

/-- C5: for every non-empty preferred model name the candidate list is
the preferred name, then the "-002" variant exactly when the name lacks a
trailing hyphen-plus-three-digits suffix, then the three fixed fallbacks,
deduplicated preserving first occurrence; for `"foo"` it is
`["foo", "foo-002", "gemini-2.5-flash", "gemini-1.5-flash-002",
"gemini-1.5-flash"]`. -/
theorem C5_model_candidates :
    (∀ base : String, base ≠ "" → getModelCandidates base = candidateListSpec base) ∧
    getModelCandidates "foo"
      = ["foo", "foo-002", "gemini-2.5-flash", "gemini-1.5-flash-002", "gemini-1.5-flash"] := by
  constructor
  · intro base hb
    simp only [getModelCandidates]
    rw [dedupFirst_push_nil, dedupFirst_pushL, dedupFirst_pushL]
    simp only [candidateListSpec]
    cases hv : hasVersionSuffix base <;>
      simp [hb, hv, List.append_assoc]
  · rfl

theorem C5_model_candidates_witness :
    ("bar" : String) ≠ "" ∧ getModelCandidates "bar" = candidateListSpec "bar" :=
  ⟨by decide, C5_model_candidates.1 "bar" (by decide)⟩

/-! ### Claim C4 -/

theorem generateLoop_all_notFound :
    ∀ (es : List JsError) (elast : JsError) (lastE : Option JsError),
      (∀ e ∈ es, is404 e = true) → is404 elast = true →
      generateLoop ((es ++ [elast]).map Except.error) lastE
        = Except.error (handleError elast) := by
  intro es
  induction es with
  | nil =>
    intro elast lastE _ hl
    simp [generateLoop, hl]
  | cons e es ih =>
    intro elast lastE hall hl
    have he : is404 e = true := hall e (List.mem_cons_self e es)
    simp only [List.cons_append, List.map_cons, generateLoop, he, if_pos]
    exact ih elast (some e) (fun e' h' => hall e' (List.mem_cons_of_mem e h')) hl

/-- C4 (counterexample): when every candidate fails with a not-found
response, `generateContent` raises the classified *last provider error*
(here `"Vertex AI API error (404): model two missing"`), not an
aggregated "no usable model" error. -/
theorem C4_counterexample :
    generateContent
        [Except.error ⟨none, some 404, none, "model one missing"⟩,
         Except.error ⟨none, some 404, none, "model two missing"⟩]
      = Except.error (mkJsError "Vertex AI API error (404): model two missing") ∧
    (mkJsError "Vertex AI API error (404): model two missing").message ≠ "Model not found" := by
  exact ⟨rfl, by decide⟩

/-- C4 (amended): a not-found response advances the loop to the next
candidate; any other error aborts immediately with the classified error;
exhausting the candidates with only not-found responses raises the
classified last provider error; the generic `"Model not found"` error
appears only when the candidate list is empty. -/
theorem C4_generate_content :
    (∀ (es : List JsError) (elast : JsError),
       (∀ e ∈ es, is404 e = true) → is404 elast = true →
       generateContent ((es ++ [elast]).map Except.error)
         = Except.error (handleError elast)) ∧
    (∀ (e : JsError) (rest : List (Except JsError String)) (lastE : Option JsError),
       is404 e = true →
       generateLoop (Except.error e :: rest) lastE = generateLoop rest (some e)) ∧
    (∀ (e : JsError) (rest : List (Except JsError String)) (lastE : Option JsError),
       is404 e = false →
       generateLoop (Except.error e :: rest) lastE = Except.error (handleError e)) ∧
    generateContent [] = Except.error (mkJsError "Model not found") := by
  refine ⟨?_, ?_, ?_, rfl⟩
  · intro es elast hall hl
    exact generateLoop_all_notFound es elast none hall hl
  · intro e rest lastE he
    simp [generateLoop, he]
  · intro e rest lastE he
    simp [generateLoop, he]

theorem C4_generate_content_witness :
    generateContent
        [Except.error ⟨none, some 404, none, "first missing"⟩,
         Except.error ⟨none, some 404, none, "second missing"⟩]
      = Except.error (handleError ⟨none, some 404, none, "second missing"⟩) :=
  C4_generate_content.1 [⟨none, some 404, none, "first missing"⟩]
    ⟨none, some 404, none, "second missing"⟩ (by decide) (by decide)

/-! ### Claim C6 -/

/-- C6: the access-token cache consults the credential provider exactly
when no valid token is cached; a successful fetch at `n0` caches the
token with expiry `n0 + 55` minutes, and any call before that expiry
performs no fetch and returns the same token; a failed fetch surfaces the
error and leaves the cached fields unchanged. -/
theorem C6_token_cache :
    (∀ (st : TokenState) (now : Int) (f : Except String String),
       (getAccessToken st now f).2.2 = !(tokenValid st now)) ∧
    (∀ (st : TokenState) (n0 n1 : Int) (t : String) (f2 : Except String String),
       tokenValid st n0 = false → t ≠ "" → 0 ≤ n0 → n0 ≤ n1 → n1 < n0 + 55 * 60 * 1000 →
       getAccessToken st n0 (Except.ok t)
           = (Except.ok t, ⟨some t, some (n0 + 55 * 60 * 1000)⟩, true) ∧
       getAccessToken ⟨some t, some (n0 + 55 * 60 * 1000)⟩ n1 f2
           = (Except.ok t, ⟨some t, some (n0 + 55 * 60 * 1000)⟩, false)) ∧
    (∀ (st : TokenState) (now : Int) (e : String),
       tokenValid st now = false →
       getAccessToken st now (Except.error e) = (Except.error e, st, true)) := by
  refine ⟨?_, ?_, ?_⟩
  · intro st now f
    unfold getAccessToken
    by_cases h : tokenValid st now
    · simp [h]
    · cases f <;> simp [h]
  · intro st n0 n1 t f2 hv ht h0 h01 h1
    have hvalid : tokenValid ⟨some t, some (n0 + 55 * 60 * 1000)⟩ n1 = true := by
      simp only [tokenValid, Bool.and_eq_true, bne_iff_ne, decide_eq_true_eq]
      refine ⟨⟨ht, ?_⟩, h1⟩
      omega
    constructor
    · unfold getAccessToken
      rw [if_neg (by simp [hv])]
    · unfold getAccessToken
      rw [if_pos hvalid]
      rfl
  · intro st now e hv
    unfold getAccessToken
    rw [if_neg (by simp [hv])]

theorem C6_token_cache_witness :
    getAccessToken ⟨none, none⟩ 0 (Except.ok "tok")
        = (Except.ok "tok", ⟨some "tok", some 3300000⟩, true) ∧
    getAccessToken ⟨some "tok", some 3300000⟩ 60000 (Except.error "provider down")
        = (Except.ok "tok", ⟨some "tok", some 3300000⟩, false) :=
  C6_token_cache.2.1 ⟨none, none⟩ 0 60000 "tok" (Except.error "provider down")
    (by decide) (by decide) (by decide) (by decide) (by decide)

/-! ### Claim C9 -/

theorem fdiv_1000_eq (a : Int) : a.fdiv 1000 = a / 1000 := Int.fdiv_eq_ediv a (by decide)

theorem fdiv_60_eq (a : Int) : a.fdiv 60 = a / 60 := Int.fdiv_eq_ediv a (by decide)

theorem fdiv_24_eq (a : Int) : a.fdiv 24 = a / 24 := Int.fdiv_eq_ediv a (by decide)

theorem fdiv_30_eq (a : Int) : a.fdiv 30 = a / 30 := Int.fdiv_eq_ediv a (by decide)

theorem fdiv_12_eq (a : Int) : a.fdiv 12 = a / 12 := Int.fdiv_eq_ediv a (by decide)

theorem relBucket_mono (d1 d2 : Int) (h0 : 0 ≤ d1) (h12 : d1 ≤ d2) :
    bucketLe (relBucket d1) (relBucket d2) := by
  simp only [relBucket, bucketLe, secOf, minuteOf, hourOf, dayOf, monthOf, yearOf,
    fdiv_1000_eq, fdiv_60_eq, fdiv_24_eq, fdiv_30_eq, fdiv_12_eq]
  split_ifs <;> simp_all <;> omega

/-- C9: `toRelativeTime` is `null` on an unparsable timestamp; its output
is the bucket text of the elapsed-time bucket (seconds / minutes / hours /
days / months / years with the 60 s, 60 min, 24 h, 30 day and 12 month
thresholds); and for two past timestamps `t1 < t2` observed at the same
instant, the bucket of the older `t1` is equal or larger. -/
theorem C9_relative_time :
    (∀ now t1 t2 : Int, t1 < t2 → t2 ≤ now →
       bucketLe (relBucket (now - t2)) (relBucket (now - t1))) ∧
    (∀ d : Int, relTimeOfDiff d = bucketText (relBucket d)) ∧
    (∀ now : Int, toRelativeTime none now = none) := by
  refine ⟨?_, ?_, fun now => rfl⟩
  · intro now t1 t2 h12 h2n
    exact relBucket_mono (now - t2) (now - t1) (by omega) (by omega)
  · intro d
    simp only [relTimeOfDiff, relBucket]
    split_ifs <;> rfl

theorem C9_relative_time_witness :
    bucketLe (relBucket (1000000 - 600000)) (relBucket (1000000 - 0)) :=
  C9_relative_time.1 1000000 0 600000 (by decide) (by decide)

end CareerInsights
